import Mathlib

/-!
# image-sorting-app: the upload handler of `main.go`

A shallow embedding of `uploadImage` and `loadImageForPrediction`.

* The request, the filesystem and the collaborators the handler calls (multipart
  parsing, `os.Create`, `io.Copy`, the TensorFlow runtime, `sort.Slice`,
  `encoding/json`) are explicit: the request and the `Runtime` record say what each
  call returns, the `World` carries the filesystem (a map from paths to bytes) and the
  list of collaborator calls made so far.
* A `float32` is NaN or a number (`Float32`); the numbers, the two infinities among
  them, are a type `α` with a linear order. The comparisons are Go's: every comparison
  with NaN is false. Which numbers `encoding/json` can write is the runtime's
  `jsonFloat`; it never writes NaN.
* `sort.Slice` is a parameter. Its documented contract is `SortSliceContract`;
  `insertionSortLessFunc`, the insertion sort that `sort.Slice` runs on a short slice,
  satisfies it.
* A run-time panic (index out of range, failed type assertion) is the outcome
  `Outcome.panic`: `net/http` recovers it and closes the connection without a response.
-/

namespace ImageSortingApp

/-! ## Data model -/

/-- The bytes of a file. -/
abbrev Bytes := List UInt8

/-- A `float32`: NaN, or a number of the type `α` (a finite value or an infinity). -/
inductive Float32 (α : Type) where
  | nan
  | val (x : α)
deriving DecidableEq, Repr

/-- Go's `a > b` on `float32`: false when either side is NaN. -/
def Float32.gt {α : Type} [LinearOrder α] : Float32 α → Float32 α → Bool
  | .val x, .val y => decide (x > y)
  | _, _ => false

/-- Go's `a <= b` on `float32`: false when either side is NaN. -/
def Float32.le {α : Type} [LinearOrder α] : Float32 α → Float32 α → Bool
  | .val x, .val y => decide (x ≤ y)
  | _, _ => false

/-- The Go struct `Prediction` (main.go 107-110). -/
structure Prediction (α : Type) where
  ClassID : Int
  Probability : Float32 α
deriving DecidableEq, Repr

/-- A `multipart.FileHeader`: the file name the client sent and what `Open` gives,
`none` when opening fails, otherwise the bytes read from the opened file. -/
structure FileHeader where
  Filename : String
  Open : Option Bytes
deriving DecidableEq, Repr

/-- A parsed `multipart.Form`: the file headers stored under each field name. -/
structure Form where
  File : String → List FileHeader

/-- The request as the handler sees it: the result of `ParseMultipartForm(10 << 20)`,
`none` when it returns an error. The argument bounds the memory the parser uses, not the
size of the upload: a larger file part is kept in a temporary file and parses as well. -/
structure Request where
  ParseMultipartForm : Option Form

/-- A `*tf.Tensor` built by `tf.NewTensor(string(imgData))`: a scalar string tensor
holding those bytes. -/
structure Tensor where
  data : Bytes
deriving DecidableEq, Repr

/-- What `(*tf.Tensor).Value()` returns: a `[][]float32`, or a value of another Go type. -/
inductive TensorValue (α : Type) where
  | float32s (rows : List (List (Float32 α)))
  | other
deriving DecidableEq, Repr

/-- A loaded `*tf.SavedModel`: `Run t` is `model.Session.Run` feeding `t` to `input_1`
and fetching `probs`; `none` when it returns an error. -/
structure SavedModel (α : Type) where
  Run : Tensor → Option (List (TensorValue α))

/-- The collaborators of the handler, none of them code of this repository. -/
structure Runtime (α : Type) where
  /-- `filepath.Join`. -/
  Join : String → String → String
  /-- Whether `os.Create` of the path succeeds. -/
  Create : String → Bool
  /-- The call `io.Copy(outFile, file)`: `none` when every byte was written, `some k`
  when it returns an error after `k` bytes. -/
  Copy : String → Bytes → Option Nat
  /-- The call `tf.LoadSavedModel("efficientnet", ["serve"], nil)`. -/
  LoadSavedModel : Option (SavedModel α)
  /-- Whether `ioutil.ReadFile` of an existing path succeeds. -/
  ReadFile : String → Bool
  /-- Whether `tf.NewTensor` accepts the string. -/
  NewTensor : Bytes → Bool
  /-- `sort.Slice`, on the elements of the slice. -/
  sortSlice : (Prediction α → Prediction α → Bool) → List (Prediction α) → List (Prediction α)
  /-- Whether `encoding/json` can write the number: it rejects the infinities. -/
  jsonFloat : α → Bool

/-- Whether `encoding/json` can write the float: it rejects NaN and the infinities. -/
def Runtime.encodes {α : Type} (rt : Runtime α) : Float32 α → Bool
  | .nan => false
  | .val x => rt.jsonFloat x

/-- A call to a collaborator, with its arguments. -/
inductive Call where
  | ParseMultipartForm
  | FormFile (key : String)
  | Create (path : String)
  | Copy (path : String) (content : Bytes)
  | LoadSavedModel
  | ReadFile (path : String)
  | NewTensor (content : Bytes)
  | Run (input : Tensor)
deriving DecidableEq, Repr

/-- The filesystem and the collaborator calls made so far, oldest first. -/
structure World where
  fs : String → Option Bytes
  calls : List Call

/-- Record a call. -/
def World.call (w : World) (c : Call) : World :=
  { w with calls := w.calls ++ [c] }

/-- Set the content of one path, leaving the others. -/
def World.write (w : World) (path : String) (content : Bytes) : World :=
  { w with fs := fun p => if p = path then some content else w.fs p }

/-- A JSON value of the success body. -/
inductive JsonValue (α : Type) where
  | str (s : String)
  | num (x : Float32 α)
deriving DecidableEq, Repr

/-- A response body: plain text, a JSON object (its fields in order), or nothing. -/
inductive Body (α : Type) where
  | text (s : String)
  | json (fields : List (String × JsonValue α))
  | empty
deriving DecidableEq, Repr

/-- An HTTP response. -/
structure Response (α : Type) where
  status : Nat
  contentType : String
  body : Body α
deriving DecidableEq, Repr

/-- How a run of the handler ends: with a response, or with a panic. -/
inductive Outcome (α : Type) where
  | response (r : Response α)
  | panic (msg : String)
deriving DecidableEq, Repr

/-- The status code a client receives, if it receives a response. -/
def Outcome.status {α : Type} : Outcome α → Option Nat
  | .response r => some r.status
  | .panic _ => none

/-- The anonymous struct `response` of main.go 93-101. -/
structure UploadResponse (α : Type) where
  Message : String
  Prediction : String
  Probability : Float32 α
deriving DecidableEq, Repr

/-! ## The handler -/

/-- The call `http.Error(w, msg, code)`. -/
def httpError {α : Type} (msg : String) (code : Nat) : Response α :=
  { status := code, contentType := "text/plain; charset=utf-8", body := .text (msg ++ "\n") }

/-- The call `r.FormFile(key)` on a parsed form: the first header under the key, opened. -/
def FormFile (form : Form) (key : String) : Option (Bytes × FileHeader) :=
  match form.File key with
  | [] => none
  | fh :: _ =>
    match fh.Open with
    | none => none
    | some content => some (content, fh)

/-- The call `os.Create(path)`: on success the file exists and is empty. -/
def osCreate {α : Type} (rt : Runtime α) (path : String) (w : World) : Bool × World :=
  let w := w.call (.Create path)
  if rt.Create path then (true, w.write path []) else (false, w)

/-- The call `io.Copy(outFile, file)`: the bytes written end up in the file. -/
def ioCopy {α : Type} (rt : Runtime α) (path : String) (content : Bytes) (w : World) :
    Bool × World :=
  let w := w.call (.Copy path content)
  match rt.Copy path content with
  | none => (true, w.write path content)
  | some k => (false, w.write path (content.take k))

/-- The function `loadImageForPrediction` (main.go 112-124). -/
def loadImageForPrediction {α : Type} (rt : Runtime α) (filePath : String) (w : World) :
    Option Tensor × World :=
  let w := w.call (.ReadFile filePath)
  match (if rt.ReadFile filePath then w.fs filePath else none) with
  | none => (none, w)
  | some imgData =>
    let w := w.call (.NewTensor imgData)
    if rt.NewTensor imgData then (some ⟨imgData⟩, w) else (none, w)

/-- Lines 23-75 of `uploadImage`: every step through `model.Session.Run`. The result is
the error response of the first failing step, or the `outputs` of the run. -/
def runInference {α : Type} (rt : Runtime α) (r : Request) (w : World) :
    (Response α ⊕ List (TensorValue α)) × World :=
  let w := w.call .ParseMultipartForm
  match r.ParseMultipartForm with
  | none => (.inl (httpError "Unable to process the uploaded image" 400), w)
  | some form =>
    let w := w.call (.FormFile "image")
    match FormFile form "image" with
    | none => (.inl (httpError "Error retrieving the image file" 400), w)
    | some (file, handler) =>
      let filePath := rt.Join "uploads" handler.Filename
      match osCreate rt filePath w with
      | (false, w) => (.inl (httpError "Error saving the uploaded image" 500), w)
      | (true, w) =>
        match ioCopy rt filePath file w with
        | (false, w) => (.inl (httpError "Error saving the uploaded image" 500), w)
        | (true, w) =>
          let w := w.call .LoadSavedModel
          match rt.LoadSavedModel with
          | none => (.inl (httpError "Failed to load the EfficientNet model" 500), w)
          | some model =>
            match loadImageForPrediction rt filePath w with
            | (none, w) => (.inl (httpError "Error loading the image for prediction" 500), w)
            | (some imgTensor, w) =>
              let w := w.call (.Run imgTensor)
              match model.Run imgTensor with
              | none => (.inl (httpError "Error performing the image prediction" 500), w)
              | some outputs => (.inr outputs, w)

/-- Line 77, `outputs[0].Value().([][]float32)[0]`: the index expressions and the type
assertion panic when they fail. -/
def probsOf {α : Type} (outputs : List (TensorValue α)) :
    Except String (List (Float32 α)) :=
  match outputs with
  | [] => .error "index out of range [0] with length 0"
  | .other :: _ => .error "interface conversion: interface {} is not [][]float32"
  | .float32s [] :: _ => .error "index out of range [0] with length 0"
  | .float32s (probs :: _) :: _ => .ok probs

/-- The entry the loop of line 79 assigns at index `ip.1`, where `probs` holds `ip.2`. -/
def entryAt {α : Type} (ip : Nat × Float32 α) : Prediction α :=
  ⟨(ip.1 : Int), ip.2⟩

/-- Lines 78-81: `make([]Prediction, len(probs))`, zero-valued, then the loop that assigns
`predictions[i]` for every index `i` of `probs`. -/
def makePredictions {α : Type} [Zero α] (probs : List (Float32 α)) : List (Prediction α) :=
  probs.enum.foldl (fun predictions ip => predictions.set ip.1 (entryAt ip))
    (List.replicate probs.length ⟨0, .val 0⟩)

/-- The `less` function handed to `sort.Slice` (line 85). -/
def lessProbability {α : Type} [LinearOrder α] (a b : Prediction α) : Bool :=
  a.Probability.gt b.Probability

/-- Lines 78-86: the predictions, sorted. -/
def sortedPredictions {α : Type} [LinearOrder α] [Zero α] (rt : Runtime α)
    (probs : List (Float32 α)) : List (Prediction α) :=
  rt.sortSlice lessProbability (makePredictions probs)

/-- The call `fmt.Sprintf("Class %d", id)`. -/
def sprintfClass (id : Int) : String :=
  "Class " ++ toString id

/-- Lines 93-101: the struct built from the top prediction. -/
def buildResponse {α : Type} (topPrediction : Prediction α) : UploadResponse α :=
  { Message := "Image uploaded and processed successfully"
    Prediction := sprintfClass topPrediction.ClassID
    Probability := topPrediction.Probability }

/-- The object `encoding/json` writes for the struct, by its field tags. -/
def jsonFields {α : Type} (resp : UploadResponse α) : List (String × JsonValue α) :=
  [("message", .str resp.Message), ("prediction", .str resp.Prediction),
   ("probability", .num resp.Probability)]

/-- Lines 103-104: the header is set and the struct is encoded. `Encode` writes nothing
when it fails, its error is dropped, and the handler returns: the status is 200. -/
def writeJSON {α : Type} (rt : Runtime α) (resp : UploadResponse α) : Response α :=
  { status := 200, contentType := "application/json"
    body := if rt.encodes resp.Probability then .json (jsonFields resp) else .empty }

/-- Lines 77-104 of `uploadImage`: from the `outputs` of the run to the response. -/
def respond {α : Type} [LinearOrder α] [Zero α] (rt : Runtime α)
    (outputs : List (TensorValue α)) : Outcome α :=
  match probsOf outputs with
  | .error msg => .panic msg
  | .ok probs =>
    match sortedPredictions rt probs with
    | [] => .panic "index out of range [0] with length 0"
    | topPrediction :: _ => .response (writeJSON rt (buildResponse topPrediction))

/-- The handler `uploadImage` (main.go 22-105). -/
def uploadImage {α : Type} [LinearOrder α] [Zero α] (rt : Runtime α) (r : Request) (w : World) :
    Outcome α × World :=
  match runInference rt r w with
  | (.inl errorResponse, w) => (.response errorResponse, w)
  | (.inr outputs, w) => (respond rt outputs, w)

/-! ## The contract of `sort.Slice`, and a sort that meets it -/

/-- What `sort` asks of `less`, on the elements of the slice: irreflexive, transitive,
and transitive where it is false. -/
def LessOrderingOn {β : Type} (less : β → β → Bool) (l : List β) : Prop :=
  (∀ a ∈ l, less a a = false) ∧
  (∀ a ∈ l, ∀ b ∈ l, ∀ c ∈ l, less a b = true → less b c = true → less a c = true) ∧
  (∀ a ∈ l, ∀ b ∈ l, ∀ c ∈ l, less a b = false → less b c = false → less a c = false)

/-- The contract of `sort.Slice`: the result is a rearrangement of the slice, and when
`less` is such an ordering of its elements no element is less than one before it. Which
of several equal elements comes first is left open (the sort is not stable), and so is
the order when `less` is no such ordering. -/
def SortSliceContract {β : Type} (sortSlice : (β → β → Bool) → List β → List β) : Prop :=
  ∀ less l, (sortSlice less l).Perm l ∧
    (LessOrderingOn less l → (sortSlice less l).Pairwise (fun a b => less b a = false))

/-- The inner loop of `insertionSortLessFunc`: `x`, placed after the sorted part, is
swapped with the element before it as long as it is less than that element. The sorted
part is given and returned last element first. -/
def insertLeft {β : Type} (less : β → β → Bool) (x : β) : List β → List β
  | [] => [x]
  | y :: ys => if less x y then y :: insertLeft less x ys else x :: y :: ys

/-- The function `insertionSortLessFunc` of package `sort`, which `sort.Slice` runs on a
slice of fewer than 13 elements: the elements are inserted one by one, left to right. -/
def insertionSortLessFunc {β : Type} (less : β → β → Bool) (l : List β) : List β :=
  (l.foldl (fun sortedPart x => insertLeft less x sortedPart) []).reverse

/-! ## Concrete inputs -/

/-- The numbers a `float32` can hold, in their order: `⊥` and `⊤` are the infinities, a
finite value is given by the rational number it stands for. -/
abbrev Number := WithBot (WithTop ℚ)

/-- A finite float. -/
def finiteFloat (q : ℚ) : Float32 Number :=
  .val ((q : WithTop ℚ) : WithBot (WithTop ℚ))

/-- The float `+Inf`. -/
def posInf : Float32 Number :=
  .val ((⊤ : WithTop ℚ) : WithBot (WithTop ℚ))

/-- The float `-Inf`. -/
def negInf : Float32 Number :=
  .val ⊥

/-- The numbers `encoding/json` writes: the finite ones. -/
def isFinite : Number → Bool
  | some (some _) => true
  | _ => false

/-- `filepath.Join` of a directory name and a plain file name. -/
def joinPath (dir name : String) : String :=
  dir ++ "/" ++ name

/-- A runtime in which every call succeeds; the model's run returns `outputs`. -/
def demoRuntime (outputs : List (TensorValue Number)) : Runtime Number where
  Join := joinPath
  Create := fun _ => true
  Copy := fun _ _ => none
  LoadSavedModel := some ⟨fun _ => some outputs⟩
  ReadFile := fun _ => true
  NewTensor := fun _ => true
  sortSlice := insertionSortLessFunc
  jsonFloat := isFinite

/-- The header of a file that opens and reads as `content`. -/
def demoHeader (name : String) (content : Bytes) : FileHeader :=
  ⟨name, some content⟩

/-- A form that holds one file, under the field `field`. -/
def demoForm (field name : String) (content : Bytes) : Form :=
  ⟨fun key => if key = field then [demoHeader name content] else []⟩

/-- A request whose form parses to `demoForm`. -/
def demoRequest (field name : String) (content : Bytes) : Request :=
  ⟨some (demoForm field name content)⟩

/-- A request whose form does not parse. -/
def malformedRequest : Request :=
  ⟨none⟩

/-- A world with no files and no calls made. -/
def emptyWorld : World :=
  ⟨fun _ => none, []⟩

/-- The runtime in which the steps numbered `n` and later fail, where 3 is the file
create, 4 the copy, 5 the model load, 6 the file read, 7 the tensor and 8 the run. -/
def failingFrom (n : Nat) : Runtime Number where
  Join := joinPath
  Create := fun _ => decide (3 < n)
  Copy := fun _ _ => if 4 < n then none else some 2
  LoadSavedModel := if 5 < n then some ⟨fun _ => if 8 < n then some [] else none⟩ else none
  ReadFile := fun _ => decide (6 < n)
  NewTensor := fun _ => decide (7 < n)
  sortSlice := insertionSortLessFunc
  jsonFloat := isFinite

/-- The model that answers with the number of bytes it is given. -/
def byteCountModel : SavedModel Number :=
  ⟨fun input => some [.float32s [[finiteFloat 0, finiteFloat input.data.length]]]⟩

/-- A runtime in which every call succeeds, with the model `byteCountModel`. -/
def byteCountRuntime : Runtime Number where
  Join := joinPath
  Create := fun _ => true
  Copy := fun _ _ => none
  LoadSavedModel := some byteCountModel
  ReadFile := fun _ => true
  NewTensor := fun _ => true
  sortSlice := insertionSortLessFunc
  jsonFloat := isFinite

/-- A runtime in which every call but the model load succeeds. -/
def modelMissing : Runtime Number where
  Join := joinPath
  Create := fun _ => true
  Copy := fun _ _ => none
  LoadSavedModel := none
  ReadFile := fun _ => true
  NewTensor := fun _ => true
  sortSlice := insertionSortLessFunc
  jsonFloat := isFinite

/-- A world that already holds a file at `uploads/cat.png` and one elsewhere. -/
def usedWorld : World :=
  ⟨fun p => if p = "uploads/cat.png" then some [1, 2, 3]
    else if p = "notes.txt" then some [104, 105] else none, [.LoadSavedModel]⟩

/-- The output vector `[0.1, 0.7, 0.2]`. -/
def demoProbs : List (Float32 Number) :=
  [finiteFloat (1 / 10), finiteFloat (7 / 10), finiteFloat (2 / 10)]

/-- The bytes uploaded in the examples. -/
def demoBytes : Bytes :=
  [137, 80, 78, 71]

/-! ## The prediction list -/

section Predictions

variable {α : Type}

theorem fill_enumFrom [Zero α] (rest : List (Float32 α)) (done : List (Prediction α)) :
    (rest.enumFrom done.length).foldl
        (fun predictions ip => predictions.set ip.1 (entryAt ip))
        (done ++ List.replicate rest.length ⟨0, .val 0⟩)
      = done ++ (rest.enumFrom done.length).map entryAt := by
  induction rest generalizing done with
  | nil => simp
  | cons x xs ih =>
    have hstep : (done ++ List.replicate (xs.length + 1) (⟨0, .val 0⟩ : Prediction α)).set done.length
          ⟨(done.length : Int), x⟩
        = (done ++ [⟨(done.length : Int), x⟩]) ++ List.replicate xs.length ⟨0, .val 0⟩ := by
      simp [List.replicate_succ, List.set_append]
    have hlen : (done ++ [(⟨(done.length : Int), x⟩ : Prediction α)]).length = done.length + 1 := by
      simp
    have := ih (done ++ [⟨(done.length : Int), x⟩])
    rw [hlen] at this
    simp only [List.enumFrom_cons, List.foldl_cons, List.length_cons, List.map_cons]
    have hentry : entryAt (done.length, x) = (⟨(done.length : Int), x⟩ : Prediction α) := rfl
    rw [hentry, hstep, this]
    simp

theorem makePredictions_eq_map [Zero α] (probs : List (Float32 α)) :
    makePredictions probs = probs.enum.map entryAt := by
  have := fill_enumFrom probs ([] : List (Prediction α))
  simpa [makePredictions, List.enum] using this

theorem length_makePredictions [Zero α] (probs : List (Float32 α)) :
    (makePredictions probs).length = probs.length := by
  simp [makePredictions_eq_map]

theorem getElem?_makePredictions [Zero α] (probs : List (Float32 α)) (i : Nat) (h : i < probs.length) :
    (makePredictions probs)[i]? = some ⟨(i : Int), probs[i]⟩ := by
  simp [makePredictions_eq_map, List.getElem?_enum, entryAt, List.getElem?_eq_getElem h]

theorem mem_makePredictions [Zero α] (probs : List (Float32 α)) (p : Prediction α) :
    p ∈ makePredictions probs ↔ ∃ (k : Nat) (h : k < probs.length), p = ⟨(k : Int), probs[k]⟩ := by
  rw [makePredictions_eq_map, List.mem_map]
  constructor
  · rintro ⟨⟨k, x⟩, hmem, rfl⟩
    have hk : k < probs.length := List.fst_lt_of_mem_enum hmem
    refine ⟨k, hk, ?_⟩
    have := List.mk_mem_enum_iff_getElem?.1 hmem
    rw [List.getElem?_eq_getElem hk] at this
    simp only [Option.some.injEq] at this
    simp [entryAt, this]
  · rintro ⟨k, hk, rfl⟩
    exact ⟨(k, probs[k]), List.mk_mem_enum_iff_getElem?.2 (List.getElem?_eq_getElem hk), rfl⟩

theorem map_ClassID_makePredictions [Zero α] (probs : List (Float32 α)) :
    (makePredictions probs).map (fun p => p.ClassID) = (List.range probs.length).map Int.ofNat := by
  rw [makePredictions_eq_map, List.map_map, ← List.enum_map_fst probs, List.map_map]
  rfl

end Predictions

/-! ## The sort -/

section Sorting

variable {β : Type}

theorem perm_insertLeft (less : β → β → Bool) (x : β) (l : List β) :
    (insertLeft less x l).Perm (x :: l) := by
  induction l with
  | nil => exact List.Perm.refl _
  | cons y ys ih =>
    unfold insertLeft
    split
    · exact (List.Perm.cons y ih).trans (List.Perm.swap x y ys)
    · exact List.Perm.refl _

theorem perm_foldl_insertLeft (less : β → β → Bool) (l acc : List β) :
    (l.foldl (fun sortedPart x => insertLeft less x sortedPart) acc).Perm (l.reverse ++ acc) := by
  induction l generalizing acc with
  | nil => simp
  | cons x xs ih =>
    simp only [List.foldl_cons, List.reverse_cons, List.append_assoc, List.singleton_append]
    exact (ih _).trans (List.Perm.append_left _ (perm_insertLeft less x acc))

theorem pairwise_insertLeft (less : β → β → Bool) (x : β) (l : List β)
    (hirr : ∀ a ∈ x :: l, less a a = false)
    (htrans : ∀ a ∈ x :: l, ∀ b ∈ x :: l, ∀ c ∈ x :: l,
      less a b = true → less b c = true → less a c = true)
    (hneg : ∀ a ∈ x :: l, ∀ b ∈ x :: l, ∀ c ∈ x :: l,
      less a b = false → less b c = false → less a c = false)
    (hl : l.Pairwise (fun a b => less a b = false)) :
    (insertLeft less x l).Pairwise (fun a b => less a b = false) := by
  induction l with
  | nil => simp [insertLeft]
  | cons y ys ih =>
    have hx : x ∈ x :: y :: ys := List.mem_cons_self _ _
    have hy : y ∈ x :: y :: ys := List.mem_cons_of_mem _ (List.mem_cons_self _ _)
    have hsub : ∀ z ∈ x :: ys, z ∈ x :: y :: ys := by
      intro z hz
      rcases List.mem_cons.1 hz with h | h
      · exact h ▸ hx
      · exact List.mem_cons_of_mem _ (List.mem_cons_of_mem _ h)
    obtain ⟨hyys, hys⟩ := List.pairwise_cons.1 hl
    unfold insertLeft
    split
    · rename_i hlt
      refine List.pairwise_cons.2 ⟨?_, ?_⟩
      · intro z hz
        rcases List.mem_cons.1 ((perm_insertLeft less x ys).subset hz) with h | h
        · subst h
          cases hyx : less y z with
          | false => rfl
          | true =>
            have := htrans z hx y hy z hx hlt hyx
            rw [hirr z hx] at this
            exact absurd this (by simp)
        · exact hyys z h
      · exact ih (fun a ha => hirr a (hsub a ha))
          (fun a ha b hb c hc => htrans a (hsub a ha) b (hsub b hb) c (hsub c hc))
          (fun a ha b hb c hc => hneg a (hsub a ha) b (hsub b hb) c (hsub c hc)) hys
    · rename_i hlt
      have hxy : less x y = false := by simpa using hlt
      refine List.pairwise_cons.2 ⟨?_, hl⟩
      intro z hz
      rcases List.mem_cons.1 hz with h | h
      · exact h ▸ hxy
      · exact hneg x hx y hy z (List.mem_cons_of_mem _ (List.mem_cons_of_mem _ h)) hxy
          (hyys z h)

theorem pairwise_foldl_insertLeft (less : β → β → Bool) (l acc : List β)
    (hirr : ∀ a ∈ l ++ acc, less a a = false)
    (htrans : ∀ a ∈ l ++ acc, ∀ b ∈ l ++ acc, ∀ c ∈ l ++ acc,
      less a b = true → less b c = true → less a c = true)
    (hneg : ∀ a ∈ l ++ acc, ∀ b ∈ l ++ acc, ∀ c ∈ l ++ acc,
      less a b = false → less b c = false → less a c = false)
    (hacc : acc.Pairwise (fun a b => less a b = false)) :
    (l.foldl (fun sortedPart x => insertLeft less x sortedPart) acc).Pairwise
      (fun a b => less a b = false) := by
  induction l generalizing acc with
  | nil => simpa using hacc
  | cons x xs ih =>
    have hsub₁ : ∀ z ∈ x :: acc, z ∈ (x :: xs) ++ acc := by
      intro z hz
      rcases List.mem_cons.1 hz with h | h
      · subst h; simp
      · simp [h]
    have hsub₂ : ∀ z ∈ xs ++ insertLeft less x acc, z ∈ (x :: xs) ++ acc := by
      intro z hz
      rcases List.mem_append.1 hz with h | h
      · simp [h]
      · rcases List.mem_cons.1 ((perm_insertLeft less x acc).subset h) with h | h
        · subst h; simp
        · simp [h]
    simp only [List.foldl_cons]
    refine ih (insertLeft less x acc)
      (fun a ha => hirr a (hsub₂ a ha))
      (fun a ha b hb c hc => htrans a (hsub₂ a ha) b (hsub₂ b hb) c (hsub₂ c hc))
      (fun a ha b hb c hc => hneg a (hsub₂ a ha) b (hsub₂ b hb) c (hsub₂ c hc)) ?_
    exact pairwise_insertLeft less x acc
      (fun a ha => hirr a (hsub₁ a ha))
      (fun a ha b hb c hc => htrans a (hsub₁ a ha) b (hsub₁ b hb) c (hsub₁ c hc))
      (fun a ha b hb c hc => hneg a (hsub₁ a ha) b (hsub₁ b hb) c (hsub₁ c hc)) hacc

theorem insertionSortLessFunc_contract :
    SortSliceContract (insertionSortLessFunc : (β → β → Bool) → List β → List β) := by
  intro less l
  constructor
  · have h := perm_foldl_insertLeft less l []
    simp only [List.append_nil] at h
    exact (List.reverse_perm _).trans (h.trans (List.reverse_perm l))
  · rintro ⟨hirr, htrans, hneg⟩
    have h := pairwise_foldl_insertLeft less l []
      (by simpa using hirr) (by simpa using htrans) (by simpa using hneg) List.Pairwise.nil
    exact List.pairwise_reverse.2 h

theorem lessProbability_orderingOn {α : Type} [LinearOrder α] (l : List (Prediction α))
    (hnan : ∀ p ∈ l, p.Probability ≠ .nan) : LessOrderingOn lessProbability l := by
  have hval : ∀ p ∈ l, ∃ x, p.Probability = .val x := by
    intro p hp
    cases h : p.Probability with
    | nan => exact absurd h (hnan p hp)
    | val x => exact ⟨x, rfl⟩
  refine ⟨?_, ?_, ?_⟩
  · intro a ha
    obtain ⟨x, hx⟩ := hval a ha
    simp [lessProbability, hx, Float32.gt]
  · intro a ha b hb c hc
    obtain ⟨x, hx⟩ := hval a ha
    obtain ⟨y, hy⟩ := hval b hb
    obtain ⟨z, hz⟩ := hval c hc
    simp only [lessProbability, hx, hy, hz, Float32.gt, decide_eq_true_eq]
    exact fun h1 h2 => lt_trans h2 h1
  · intro a ha b hb c hc
    obtain ⟨x, hx⟩ := hval a ha
    obtain ⟨y, hy⟩ := hval b hb
    obtain ⟨z, hz⟩ := hval c hc
    simp only [lessProbability, hx, hy, hz, Float32.gt, decide_eq_false_iff_not, not_lt,
      gt_iff_lt]
    exact fun h1 h2 => le_trans h1 h2

end Sorting

section Steps

variable {α : Type}

theorem ite_ite_same {γ : Type} (c : Prop) [Decidable c] (x y z : γ) :
    (if c then x else if c then y else z) = if c then x else z := by
  by_cases h : c <;> simp [h]

theorem runInference_parse_fails (rt : Runtime α) (r : Request) (w : World)
    (h1 : r.ParseMultipartForm = none) :
    runInference rt r w = (.inl (httpError "Unable to process the uploaded image" 400),
      { fs := w.fs, calls := w.calls ++ [.ParseMultipartForm] }) := by
  simp [runInference, h1, World.call]

theorem runInference_formFile_fails (rt : Runtime α) (r : Request) (w : World) (form : Form)
    (h1 : r.ParseMultipartForm = some form) (h2 : FormFile form "image" = none) :
    runInference rt r w = (.inl (httpError "Error retrieving the image file" 400),
      { fs := w.fs, calls := w.calls ++ [.ParseMultipartForm, .FormFile "image"] }) := by
  simp [runInference, h1, h2, World.call]

theorem runInference_create_fails (rt : Runtime α) (r : Request) (w : World) (form : Form)
    (file : Bytes) (handler : FileHeader)
    (h1 : r.ParseMultipartForm = some form) (h2 : FormFile form "image" = some (file, handler))
    (h3 : rt.Create (rt.Join "uploads" handler.Filename) = false) :
    runInference rt r w = (.inl (httpError "Error saving the uploaded image" 500),
      { fs := w.fs
        calls := w.calls ++ [.ParseMultipartForm, .FormFile "image",
          .Create (rt.Join "uploads" handler.Filename)] }) := by
  simp [runInference, h1, h2, h3, osCreate, World.call]

theorem runInference_copy_fails (rt : Runtime α) (r : Request) (w : World) (form : Form)
    (file : Bytes) (handler : FileHeader) (k : Nat)
    (h1 : r.ParseMultipartForm = some form) (h2 : FormFile form "image" = some (file, handler))
    (h3 : rt.Create (rt.Join "uploads" handler.Filename) = true)
    (h4 : rt.Copy (rt.Join "uploads" handler.Filename) file = some k) :
    runInference rt r w = (.inl (httpError "Error saving the uploaded image" 500),
      { fs := fun p => if p = rt.Join "uploads" handler.Filename then some (file.take k) else w.fs p
        calls := w.calls ++ [.ParseMultipartForm, .FormFile "image",
          .Create (rt.Join "uploads" handler.Filename),
          .Copy (rt.Join "uploads" handler.Filename) file] }) := by
  simp [runInference, h1, h2, h3, h4, osCreate, ioCopy, World.call, World.write, ite_ite_same]

theorem runInference_load_fails (rt : Runtime α) (r : Request) (w : World) (form : Form)
    (file : Bytes) (handler : FileHeader)
    (h1 : r.ParseMultipartForm = some form) (h2 : FormFile form "image" = some (file, handler))
    (h3 : rt.Create (rt.Join "uploads" handler.Filename) = true)
    (h4 : rt.Copy (rt.Join "uploads" handler.Filename) file = none)
    (h5 : rt.LoadSavedModel = none) :
    runInference rt r w = (.inl (httpError "Failed to load the EfficientNet model" 500),
      { fs := fun p => if p = rt.Join "uploads" handler.Filename then some file else w.fs p
        calls := w.calls ++ [.ParseMultipartForm, .FormFile "image",
          .Create (rt.Join "uploads" handler.Filename),
          .Copy (rt.Join "uploads" handler.Filename) file, .LoadSavedModel] }) := by
  simp [runInference, h1, h2, h3, h4, h5, osCreate, ioCopy, World.call, World.write,
    ite_ite_same]

theorem runInference_read_fails (rt : Runtime α) (r : Request) (w : World) (form : Form)
    (file : Bytes) (handler : FileHeader) (model : SavedModel α)
    (h1 : r.ParseMultipartForm = some form) (h2 : FormFile form "image" = some (file, handler))
    (h3 : rt.Create (rt.Join "uploads" handler.Filename) = true)
    (h4 : rt.Copy (rt.Join "uploads" handler.Filename) file = none)
    (h5 : rt.LoadSavedModel = some model)
    (h6 : rt.ReadFile (rt.Join "uploads" handler.Filename) = false) :
    runInference rt r w = (.inl (httpError "Error loading the image for prediction" 500),
      { fs := fun p => if p = rt.Join "uploads" handler.Filename then some file else w.fs p
        calls := w.calls ++ [.ParseMultipartForm, .FormFile "image",
          .Create (rt.Join "uploads" handler.Filename),
          .Copy (rt.Join "uploads" handler.Filename) file, .LoadSavedModel,
          .ReadFile (rt.Join "uploads" handler.Filename)] }) := by
  simp [runInference, h1, h2, h3, h4, h5, h6, osCreate, ioCopy, loadImageForPrediction,
    World.call, World.write, ite_ite_same]

theorem runInference_newTensor_fails (rt : Runtime α) (r : Request) (w : World) (form : Form)
    (file : Bytes) (handler : FileHeader) (model : SavedModel α)
    (h1 : r.ParseMultipartForm = some form) (h2 : FormFile form "image" = some (file, handler))
    (h3 : rt.Create (rt.Join "uploads" handler.Filename) = true)
    (h4 : rt.Copy (rt.Join "uploads" handler.Filename) file = none)
    (h5 : rt.LoadSavedModel = some model)
    (h6 : rt.ReadFile (rt.Join "uploads" handler.Filename) = true)
    (h7 : rt.NewTensor file = false) :
    runInference rt r w = (.inl (httpError "Error loading the image for prediction" 500),
      { fs := fun p => if p = rt.Join "uploads" handler.Filename then some file else w.fs p
        calls := w.calls ++ [.ParseMultipartForm, .FormFile "image",
          .Create (rt.Join "uploads" handler.Filename),
          .Copy (rt.Join "uploads" handler.Filename) file, .LoadSavedModel,
          .ReadFile (rt.Join "uploads" handler.Filename), .NewTensor file] }) := by
  simp [runInference, h1, h2, h3, h4, h5, h6, h7, osCreate, ioCopy, loadImageForPrediction,
    World.call, World.write, ite_ite_same]

theorem runInference_run (rt : Runtime α) (r : Request) (w : World) (form : Form)
    (file : Bytes) (handler : FileHeader) (model : SavedModel α)
    (h1 : r.ParseMultipartForm = some form) (h2 : FormFile form "image" = some (file, handler))
    (h3 : rt.Create (rt.Join "uploads" handler.Filename) = true)
    (h4 : rt.Copy (rt.Join "uploads" handler.Filename) file = none)
    (h5 : rt.LoadSavedModel = some model)
    (h6 : rt.ReadFile (rt.Join "uploads" handler.Filename) = true)
    (h7 : rt.NewTensor file = true) :
    runInference rt r w =
      ((match model.Run ⟨file⟩ with
        | none => .inl (httpError "Error performing the image prediction" 500)
        | some outputs => .inr outputs),
      { fs := fun p => if p = rt.Join "uploads" handler.Filename then some file else w.fs p
        calls := w.calls ++ [.ParseMultipartForm, .FormFile "image",
          .Create (rt.Join "uploads" handler.Filename),
          .Copy (rt.Join "uploads" handler.Filename) file, .LoadSavedModel,
          .ReadFile (rt.Join "uploads" handler.Filename), .NewTensor file, .Run ⟨file⟩] }) := by
  cases hrun : model.Run ⟨file⟩ <;>
    simp [runInference, h1, h2, h3, h4, h5, h6, h7, hrun, osCreate, ioCopy,
      loadImageForPrediction, World.call, World.write, ite_ite_same]

end Steps

/-! ## From the outputs to the response -/

section Respond

variable {α : Type} [LinearOrder α] [Zero α]

theorem sortedPredictions_perm (rt : Runtime α) (hsort : SortSliceContract rt.sortSlice)
    (probs : List (Float32 α)) : (sortedPredictions rt probs).Perm (makePredictions probs) :=
  (hsort lessProbability (makePredictions probs)).1

theorem sortedPredictions_pairwise (rt : Runtime α) (hsort : SortSliceContract rt.sortSlice)
    (probs : List (Float32 α)) (hnan : ∀ q ∈ probs, q ≠ .nan) :
    (sortedPredictions rt probs).Pairwise
      (fun a b => b.Probability.gt a.Probability = false) := by
  refine (hsort lessProbability (makePredictions probs)).2 (lessProbability_orderingOn _ ?_)
  intro p hp
  obtain ⟨k, hk, rfl⟩ := (mem_makePredictions probs p).1 hp
  exact hnan _ (List.getElem_mem hk)

/-- The sorted list is not empty when `probs` is not, and its head is an entry of `probs`
with its index. -/
theorem sortedPredictions_head (rt : Runtime α) (hsort : SortSliceContract rt.sortSlice)
    (probs : List (Float32 α)) (hne : probs ≠ []) :
    ∃ (k : Nat) (hk : k < probs.length) (rest : List (Prediction α)),
      sortedPredictions rt probs = ⟨(k : Int), probs[k]⟩ :: rest := by
  have hperm := sortedPredictions_perm rt hsort probs
  cases hsp : sortedPredictions rt probs with
  | nil =>
    have hlen := hperm.length_eq
    rw [hsp, length_makePredictions] at hlen
    exact absurd (List.length_eq_zero.1 hlen.symm) hne
  | cons top rest =>
    rw [hsp] at hperm
    have htop : top ∈ makePredictions probs := hperm.subset (List.mem_cons_self _ _)
    obtain ⟨k, hk, rfl⟩ := (mem_makePredictions probs top).1 htop
    exact ⟨k, hk, rest, rfl⟩

/-- When `probs` has a maximum `p` (every entry `<= p`, so none is NaN), the head of the
sorted list carries `p`. -/
theorem sortedPredictions_top (rt : Runtime α) (hsort : SortSliceContract rt.sortSlice)
    (probs : List (Float32 α)) (p : Float32 α) (hp : p ∈ probs)
    (hmax : ∀ q ∈ probs, q.le p = true) :
    ∃ (k : Nat) (hk : k < probs.length) (rest : List (Prediction α)),
      sortedPredictions rt probs = ⟨(k : Int), probs[k]⟩ :: rest ∧ probs[k] = p := by
  have hnan : ∀ q ∈ probs, q ≠ .nan := by
    intro q hq h
    have := hmax q hq
    rw [h] at this
    simp [Float32.le] at this
  have hne : probs ≠ [] := List.ne_nil_of_mem hp
  have hperm := sortedPredictions_perm rt hsort probs
  have hpair := sortedPredictions_pairwise rt hsort probs hnan
  obtain ⟨k, hk, rest, hsp⟩ := sortedPredictions_head rt hsort probs hne
  refine ⟨k, hk, rest, hsp, ?_⟩
  rw [hsp] at hperm hpair
  obtain ⟨j, hj, hjp⟩ := List.getElem_of_mem hp
  have hmem : (⟨(j : Int), probs[j]⟩ : Prediction α)
      ∈ (⟨(k : Int), probs[k]⟩ : Prediction α) :: rest :=
    hperm.symm.subset ((mem_makePredictions probs _).2 ⟨j, hj, rfl⟩)
  rcases List.mem_cons.1 hmem with h | h
  · have : probs[j] = probs[k] := congrArg Prediction.Probability h
    rw [← this, hjp]
  · have hgt : p.gt probs[k] = false := by
      have := (List.pairwise_cons.1 hpair).1 _ h
      simpa [hjp] using this
    have hle : (probs[k]).le p = true := hmax _ (List.getElem_mem hk)
    cases hpk : probs[k] with
    | nan => rw [hpk] at hle; simp [Float32.le] at hle
    | val x =>
      cases hpv : p with
      | nan => rw [hpk, hpv] at hle; simp [Float32.le] at hle
      | val y =>
        rw [hpk, hpv] at hle hgt
        simp only [Float32.le, decide_eq_true_eq] at hle
        simp only [Float32.gt, decide_eq_false_iff_not, not_lt, gt_iff_lt] at hgt
        rw [le_antisymm hle hgt]

/-- The prediction list, for every `probs`: built, it has the length of `probs` and holds
`(i, probs[i])` at every index `i`; sorted, it is a rearrangement of those entries of the
same length, its class identifiers are `0, ..., len(probs) - 1` each once, and every
entry still pairs a class with the entry of `probs` at that index. When no entry of
`probs` is NaN, no entry of the sorted list is greater than one before it. -/
theorem predictions_list_invariant (rt : Runtime α) (hsort : SortSliceContract rt.sortSlice)
    (probs : List (Float32 α)) :
    (makePredictions probs).length = probs.length ∧
    (∀ (i : Nat) (h : i < probs.length),
      (makePredictions probs)[i]? = some ⟨(i : Int), probs[i]⟩) ∧
    (sortedPredictions rt probs).Perm (makePredictions probs) ∧
    (sortedPredictions rt probs).length = probs.length ∧
    ((sortedPredictions rt probs).map fun p => p.ClassID).Perm
      ((List.range probs.length).map Int.ofNat) ∧
    (∀ p ∈ sortedPredictions rt probs,
      ∃ (k : Nat) (h : k < probs.length), p.ClassID = k ∧ p.Probability = probs[k]) ∧
    ((∀ q ∈ probs, q ≠ .nan) →
      (sortedPredictions rt probs).Pairwise
        (fun a b => b.Probability.gt a.Probability = false)) := by
  have hperm := sortedPredictions_perm rt hsort probs
  refine ⟨length_makePredictions probs, getElem?_makePredictions probs, hperm, ?_, ?_, ?_,
    sortedPredictions_pairwise rt hsort probs⟩
  · rw [hperm.length_eq, length_makePredictions]
  · rw [← map_ClassID_makePredictions probs]
    exact hperm.map _
  · intro p hp
    obtain ⟨k, hk, rfl⟩ := (mem_makePredictions probs p).1 (hperm.subset hp)
    exact ⟨k, hk, rfl, rfl⟩

theorem sprintfClass_natCast (k : Nat) : sprintfClass (k : Int) = "Class " ++ toString k := rfl

/-- What the handler answers when `probs` is not empty: the encoding of an entry of
`probs` with its index. -/
theorem respond_head (rt : Runtime α) (hsort : SortSliceContract rt.sortSlice)
    (outputs : List (TensorValue α)) (probs : List (Float32 α))
    (hprobs : probsOf outputs = .ok probs) (hne : probs ≠ []) :
    ∃ (k : Nat) (hk : k < probs.length),
      respond rt outputs = .response (writeJSON rt
        { Message := "Image uploaded and processed successfully"
          Prediction := "Class " ++ toString k
          Probability := probs[k] }) := by
  obtain ⟨k, hk, rest, hsp⟩ := sortedPredictions_head rt hsort probs hne
  exact ⟨k, hk, by simp [respond, hprobs, hsp, buildResponse, sprintfClass_natCast]⟩

/-- What the handler answers when `probs` has a maximum `p` that `encoding/json` can
write: the body with `p` and the index of an entry equal to `p`. -/
theorem respond_top (rt : Runtime α) (hsort : SortSliceContract rt.sortSlice)
    (outputs : List (TensorValue α)) (probs : List (Float32 α))
    (hprobs : probsOf outputs = .ok probs) (p : Float32 α) (hp : p ∈ probs)
    (hmax : ∀ q ∈ probs, q.le p = true) (hfin : rt.encodes p = true) :
    ∃ (k : Nat) (hk : k < probs.length), probs[k] = p ∧
      respond rt outputs = .response
        { status := 200, contentType := "application/json"
          body := .json [("message", .str "Image uploaded and processed successfully"),
            ("prediction", .str ("Class " ++ toString k)), ("probability", .num probs[k])] } := by
  obtain ⟨k, hk, rest, hsp, hkp⟩ := sortedPredictions_top rt hsort probs p hp hmax
  refine ⟨k, hk, hkp, ?_⟩
  have hfin' : rt.encodes probs[k] = true := by rw [hkp]; exact hfin
  simp [respond, hprobs, hsp, buildResponse, sprintfClass_natCast, writeJSON, hfin', jsonFields]

end Respond

section Handler

variable {α : Type} [LinearOrder α] [Zero α]

theorem uploadImage_snd (rt : Runtime α) (r : Request) (w : World) :
    (uploadImage rt r w).2 = (runInference rt r w).2 := by
  unfold uploadImage
  rcases runInference rt r w with ⟨e | outputs, w2⟩ <;> rfl

theorem uploadImage_of_error (rt : Runtime α) (r : Request) (w w2 : World) (e : Response α)
    (h : runInference rt r w = (.inl e, w2)) : uploadImage rt r w = (.response e, w2) := by
  simp [uploadImage, h]

theorem uploadImage_of_outputs (rt : Runtime α) (r : Request) (w : World)
    (outputs : List (TensorValue α)) (h : (runInference rt r w).1 = .inr outputs) :
    uploadImage rt r w = (respond rt outputs, (runInference rt r w).2) := by
  unfold uploadImage
  rcases hr : runInference rt r w with ⟨e | outs, w2⟩
  · rw [hr] at h; cases h
  · rw [hr] at h
    simp only [Sum.inr.injEq] at h
    subst h
    rfl

/-- A response with status 200 means that every step through the run succeeded. -/
theorem uploadImage_status_200 (rt : Runtime α) (r : Request) (w : World) (form : Form)
    (file : Bytes) (handler : FileHeader)
    (h1 : r.ParseMultipartForm = some form) (h2 : FormFile form "image" = some (file, handler))
    (hs : (uploadImage rt r w).1.status = some 200) :
    ∃ model outputs, rt.LoadSavedModel = some model ∧ model.Run ⟨file⟩ = some outputs ∧
      uploadImage rt r w = (respond rt outputs,
        { fs := fun p => if p = rt.Join "uploads" handler.Filename then some file else w.fs p
          calls := w.calls ++ [.ParseMultipartForm, .FormFile "image",
            .Create (rt.Join "uploads" handler.Filename),
            .Copy (rt.Join "uploads" handler.Filename) file, .LoadSavedModel,
            .ReadFile (rt.Join "uploads" handler.Filename), .NewTensor file, .Run ⟨file⟩] }) := by
  cases h3 : rt.Create (rt.Join "uploads" handler.Filename) with
  | false =>
    rw [uploadImage_of_error rt r w _ _ (runInference_create_fails rt r w form file handler h1 h2 h3)] at hs
    simp [Outcome.status, httpError] at hs
  | true =>
  cases h4 : rt.Copy (rt.Join "uploads" handler.Filename) file with
  | some k =>
    rw [uploadImage_of_error rt r w _ _ (runInference_copy_fails rt r w form file handler k h1 h2 h3 h4)] at hs
    simp [Outcome.status, httpError] at hs
  | none =>
  cases h5 : rt.LoadSavedModel with
  | none =>
    rw [uploadImage_of_error rt r w _ _ (runInference_load_fails rt r w form file handler h1 h2 h3 h4 h5)] at hs
    simp [Outcome.status, httpError] at hs
  | some model =>
  cases h6 : rt.ReadFile (rt.Join "uploads" handler.Filename) with
  | false =>
    rw [uploadImage_of_error rt r w _ _
      (runInference_read_fails rt r w form file handler model h1 h2 h3 h4 h5 h6)] at hs
    simp [Outcome.status, httpError] at hs
  | true =>
  cases h7 : rt.NewTensor file with
  | false =>
    rw [uploadImage_of_error rt r w _ _
      (runInference_newTensor_fails rt r w form file handler model h1 h2 h3 h4 h5 h6 h7)] at hs
    simp [Outcome.status, httpError] at hs
  | true =>
  have hrun := runInference_run rt r w form file handler model h1 h2 h3 h4 h5 h6 h7
  cases h8 : model.Run ⟨file⟩ with
  | none =>
    rw [h8] at hrun
    rw [uploadImage_of_error rt r w _ _ hrun] at hs
    simp [Outcome.status, httpError] at hs
  | some outputs =>
    rw [h8] at hrun
    refine ⟨model, outputs, rfl, h8, ?_⟩
    simp [uploadImage, hrun]

end Handler

/-! ## The claims -/

section Claims

variable {α : Type} [LinearOrder α] [Zero α]

/-- C1 as stated fails: on the output vector `[0.5, +Inf, 0.9]` every step succeeds, the
entries are totally ordered with maximum `+Inf`, and `encoding/json` refuses the value:
the response has an empty body, so there is no `probability` field that equals it. -/
theorem top1_probability_field_missing :
    (runInference (demoRuntime [.float32s [[finiteFloat (1 / 2), posInf, finiteFloat (9 / 10)]]])
      (demoRequest "image" "cat.png" demoBytes) emptyWorld).1
      = .inr [.float32s [[finiteFloat (1 / 2), posInf, finiteFloat (9 / 10)]]] ∧
    probsOf [TensorValue.float32s [[finiteFloat (1 / 2), posInf, finiteFloat (9 / 10)]]]
      = .ok [finiteFloat (1 / 2), posInf, finiteFloat (9 / 10)] ∧
    (∀ q ∈ [finiteFloat (1 / 2), posInf, finiteFloat (9 / 10)], q.le posInf = true) ∧
    (uploadImage (demoRuntime [.float32s [[finiteFloat (1 / 2), posInf, finiteFloat (9 / 10)]]])
      (demoRequest "image" "cat.png" demoBytes) emptyWorld).1
      = .response { status := 200, contentType := "application/json", body := .empty } :=
  ⟨rfl, rfl, by decide!, by decide!⟩

/-- C1, amended (top-1 correctness): when every step through the inference succeeds and the
vector `probs` read from the outputs has a maximum element `p` (an entry that every entry
is `<=`, so no entry is NaN) that `encoding/json` can write, the response has status 200
and a JSON body whose `probability` field is `p`. -/
theorem uploadImage_top1 (rt : Runtime α) (r : Request) (w : World)
    (outputs : List (TensorValue α)) (probs : List (Float32 α)) (p : Float32 α)
    (hsort : SortSliceContract rt.sortSlice)
    (hrun : (runInference rt r w).1 = .inr outputs)
    (hprobs : probsOf outputs = .ok probs)
    (hp : p ∈ probs) (hmax : ∀ q ∈ probs, q.le p = true) (hfin : rt.encodes p = true) :
    ∃ label : String,
      (uploadImage rt r w).1 = .response
        { status := 200, contentType := "application/json"
          body := .json [("message", .str "Image uploaded and processed successfully"),
            ("prediction", .str label), ("probability", .num p)] } := by
  obtain ⟨k, hk, hkp, hresp⟩ := respond_top rt hsort outputs probs hprobs p hp hmax hfin
  refine ⟨"Class " ++ toString k, ?_⟩
  rw [uploadImage_of_outputs rt r w outputs hrun, hresp, hkp]

/-- The output vector `[0.1, 0.7, 0.2]` gives the probability 0.7 of class 1. -/
theorem uploadImage_top1_witness :
    (∃ label : String,
      (uploadImage (demoRuntime [.float32s [demoProbs]]) (demoRequest "image" "cat.png" demoBytes) emptyWorld).1 = .response
        { status := 200, contentType := "application/json"
          body := .json [("message", .str "Image uploaded and processed successfully"),
            ("prediction", .str label), ("probability", .num (finiteFloat (7 / 10)))] }) ∧
    (uploadImage (demoRuntime [.float32s [demoProbs]]) (demoRequest "image" "cat.png" demoBytes) emptyWorld).1
      = .response
          { status := 200, contentType := "application/json"
            body := .json [("message", .str "Image uploaded and processed successfully"),
              ("prediction", .str "Class 1"), ("probability", .num (finiteFloat (7 / 10)))] } :=
  ⟨uploadImage_top1 (demoRuntime [.float32s [demoProbs]]) (demoRequest "image" "cat.png" demoBytes) emptyWorld
      [.float32s [demoProbs]] demoProbs (finiteFloat (7 / 10))
      insertionSortLessFunc_contract rfl rfl (by decide!) (by decide!) (by decide!),
    by decide!⟩

/-- C2 as stated fails: on the output vector `[+Inf, -Inf]` every step succeeds and the
response has an empty body, with neither a `prediction` nor a `probability` field. -/
theorem label_probability_fields_missing :
    (runInference (demoRuntime [.float32s [[posInf, negInf]]])
      (demoRequest "image" "cat.png" demoBytes) emptyWorld).1
      = .inr [.float32s [[posInf, negInf]]] ∧
    probsOf [TensorValue.float32s [[posInf, negInf]]] = .ok [posInf, negInf] ∧
    (uploadImage (demoRuntime [.float32s [[posInf, negInf]]])
      (demoRequest "image" "cat.png" demoBytes) emptyWorld).1
      = .response { status := 200, contentType := "application/json", body := .empty } :=
  ⟨rfl, rfl, by decide!⟩

/-- C2, amended (label and probability agree): when every step through the inference
succeeds and `probs` has a maximum element (so no entry is NaN) that `encoding/json` can
write, there is an index `k` of `probs` such that the `prediction` field of the JSON body
is the text `Class k` (`k` in decimal) and its `probability` field is the entry
`probs[k]`, which is that maximum. -/
theorem uploadImage_label_probability (rt : Runtime α) (r : Request) (w : World)
    (outputs : List (TensorValue α)) (probs : List (Float32 α)) (p : Float32 α)
    (hsort : SortSliceContract rt.sortSlice)
    (hrun : (runInference rt r w).1 = .inr outputs)
    (hprobs : probsOf outputs = .ok probs)
    (hp : p ∈ probs) (hmax : ∀ q ∈ probs, q.le p = true) (hfin : rt.encodes p = true) :
    ∃ (k : Nat) (hk : k < probs.length), probs[k] = p ∧
      (uploadImage rt r w).1 = .response
        { status := 200, contentType := "application/json"
          body := .json [("message", .str "Image uploaded and processed successfully"),
            ("prediction", .str ("Class " ++ toString k)),
            ("probability", .num probs[k])] } := by
  obtain ⟨k, hk, hkp, hresp⟩ := respond_top rt hsort outputs probs hprobs p hp hmax hfin
  exact ⟨k, hk, hkp, by rw [uploadImage_of_outputs rt r w outputs hrun, hresp]⟩

/-- The output vector `[0.1, 0.7, 0.2]` gives `Class 1`, and entry 1 of the vector is 0.7. -/
theorem uploadImage_label_probability_witness :
    (∃ (k : Nat) (hk : k < demoProbs.length), demoProbs[k] = finiteFloat (7 / 10) ∧
      (uploadImage (demoRuntime [.float32s [demoProbs]]) (demoRequest "image" "dog.jpg" demoBytes) emptyWorld).1 = .response
        { status := 200, contentType := "application/json"
          body := .json [("message", .str "Image uploaded and processed successfully"),
            ("prediction", .str ("Class " ++ toString k)),
            ("probability", .num demoProbs[k])] }) ∧
    (uploadImage (demoRuntime [.float32s [demoProbs]]) (demoRequest "image" "dog.jpg" demoBytes) emptyWorld).1 = .response
      { status := 200, contentType := "application/json"
        body := .json [("message", .str "Image uploaded and processed successfully"),
          ("prediction", .str "Class 1"), ("probability", .num demoProbs[1])] } :=
  ⟨uploadImage_label_probability (demoRuntime [.float32s [demoProbs]]) (demoRequest "image" "dog.jpg" demoBytes) emptyWorld
      [.float32s [demoProbs]] demoProbs (finiteFloat (7 / 10))
      insertionSortLessFunc_contract rfl rfl (by decide!) (by decide!) (by decide!),
    by decide!⟩

/-- C3 fails on the code: on the output vector `[0.5, NaN, 0.9]` every comparison with NaN
is false, the insertion sort of `sort.Slice` moves nothing, and the list stays
`(0, 0.5), (1, NaN), (2, 0.9)`: it is not ordered by non-increasing probability, since
0.9 comes after the smaller 0.5, and the handler reports class 0 with 0.5. -/
theorem predictions_unsorted_with_nan :
    sortedPredictions (demoRuntime []) [finiteFloat (1 / 2), .nan, finiteFloat (9 / 10)]
      = [⟨0, finiteFloat (1 / 2)⟩, ⟨1, .nan⟩, ⟨2, finiteFloat (9 / 10)⟩] ∧
    (finiteFloat (9 / 10)).gt (finiteFloat (1 / 2)) = true ∧
    ¬ (sortedPredictions (demoRuntime []) [finiteFloat (1 / 2), .nan, finiteFloat (9 / 10)]).Pairwise
      (fun a b => b.Probability.gt a.Probability = false) ∧
    ¬ (sortedPredictions (demoRuntime []) [finiteFloat (1 / 2), .nan, finiteFloat (9 / 10)]).Pairwise
      (fun a b => b.Probability.le a.Probability = true) ∧
    (uploadImage (demoRuntime [.float32s [[finiteFloat (1 / 2), .nan, finiteFloat (9 / 10)]]])
      (demoRequest "image" "cat.png" demoBytes) emptyWorld).1 = .response
        { status := 200, contentType := "application/json"
          body := .json [("message", .str "Image uploaded and processed successfully"),
            ("prediction", .str "Class 0"), ("probability", .num (finiteFloat (1 / 2)))] } :=
  ⟨by decide!, by decide!, by decide!, by decide!, by decide!⟩

/-- C4, no `image` field: when the form parses and holds no file under `image`, the
response is the 400 of the file extraction, the filesystem is as before, and the only
calls made are the form parse and the file extraction: no file is created or written,
the model is not loaded, nothing is run. -/
theorem uploadImage_missing_image (rt : Runtime α) (r : Request) (w : World) (form : Form)
    (hparse : r.ParseMultipartForm = some form) (hmissing : form.File "image" = []) :
    uploadImage rt r w =
      (.response
        { status := 400, contentType := "text/plain; charset=utf-8"
          body := .text "Error retrieving the image file\n" },
       { fs := w.fs, calls := w.calls ++ [.ParseMultipartForm, .FormFile "image"] }) := by
  have h2 : FormFile form "image" = none := by simp [FormFile, hmissing]
  rw [uploadImage_of_error rt r w _ _ (runInference_formFile_fails rt r w form hparse h2)]
  rfl

/-- A form whose only file is under `photo`, sent to a runtime where everything works. -/
theorem uploadImage_missing_image_witness :
    uploadImage (demoRuntime [.float32s [demoProbs]]) (demoRequest "photo" "cat.png" demoBytes)
        emptyWorld =
      (.response
        { status := 400, contentType := "text/plain; charset=utf-8"
          body := .text "Error retrieving the image file\n" },
       { fs := emptyWorld.fs
         calls := emptyWorld.calls ++ [.ParseMultipartForm, .FormFile "image"] }) :=
  uploadImage_missing_image (demoRuntime [.float32s [demoProbs]])
    (demoRequest "photo" "cat.png" demoBytes) emptyWorld
    (demoForm "photo" "cat.png" demoBytes) rfl (by decide)

/-- C5 as stated fails: with the model missing, a request whose form does not parse and
a request without an `image` file both get 400, not 500. -/
theorem model_missing_not_always_500 :
    modelMissing.LoadSavedModel = none ∧
    (uploadImage modelMissing malformedRequest emptyWorld).1.status = some 400 ∧
    (uploadImage modelMissing (demoRequest "photo" "cat.png" demoBytes) emptyWorld).1.status
      = some 400 :=
  ⟨rfl, by decide, by decide⟩

/-- C5, amended: when the model load fails, a request whose form parses and whose `image`
file is extracted gets 500, and a request that fails one of those two steps gets 400. -/
theorem uploadImage_model_load_fails (rt : Runtime α) (r : Request) (w : World)
    (hload : rt.LoadSavedModel = none) :
    (uploadImage rt r w).1.status =
      some (if (r.ParseMultipartForm.bind fun form => FormFile form "image").isSome
        then 500 else 400) := by
  cases h1 : r.ParseMultipartForm with
  | none =>
    rw [uploadImage_of_error rt r w _ _ (runInference_parse_fails rt r w h1)]
    simp [Outcome.status, httpError]
  | some form =>
  cases h2 : FormFile form "image" with
  | none =>
    rw [uploadImage_of_error rt r w _ _ (runInference_formFile_fails rt r w form h1 h2)]
    simp [Outcome.status, httpError, h2]
  | some fh =>
  obtain ⟨file, handler⟩ := fh
  cases h3 : rt.Create (rt.Join "uploads" handler.Filename) with
  | false =>
    rw [uploadImage_of_error rt r w _ _
      (runInference_create_fails rt r w form file handler h1 h2 h3)]
    simp [Outcome.status, httpError, h2]
  | true =>
  cases h4 : rt.Copy (rt.Join "uploads" handler.Filename) file with
  | some k =>
    rw [uploadImage_of_error rt r w _ _
      (runInference_copy_fails rt r w form file handler k h1 h2 h3 h4)]
    simp [Outcome.status, httpError, h2]
  | none =>
    rw [uploadImage_of_error rt r w _ _
      (runInference_load_fails rt r w form file handler h1 h2 h3 h4 hload)]
    simp [Outcome.status, httpError, h2]

/-- With the model missing, a well-formed upload gets 500. -/
theorem uploadImage_model_load_fails_witness :
    (uploadImage modelMissing (demoRequest "image" "cat.png" demoBytes) emptyWorld).1.status =
      some (if ((demoRequest "image" "cat.png" demoBytes).ParseMultipartForm.bind
        fun form => FormFile form "image").isSome then 500 else 400) ∧
    (uploadImage modelMissing (demoRequest "image" "cat.png" demoBytes) emptyWorld).1.status =
      some 500 :=
  ⟨uploadImage_model_load_fails modelMissing (demoRequest "image" "cat.png" demoBytes)
      emptyWorld rfl, by decide⟩

/-- C6, the first failing step decides: for each of the steps in order (form parse, file
extraction, file create, file copy, model load, tensor construction from the file read and
`tf.NewTensor`, inference), if the steps before it succeed and it fails, then whatever the
later steps would do the response is the plain-text error of that step, with status 400
for the form parse and the file extraction and status 500 for the others, and the calls
made end with that step: no later step runs. -/
theorem uploadImage_first_failure (rt : Runtime α) (r : Request) (w : World) :
    (r.ParseMultipartForm = none →
      uploadImage rt r w = (.response
        { status := 400, contentType := "text/plain; charset=utf-8"
          body := .text "Unable to process the uploaded image\n" },
        { fs := w.fs, calls := w.calls ++ [.ParseMultipartForm] })) ∧
    (∀ form, r.ParseMultipartForm = some form → FormFile form "image" = none →
      uploadImage rt r w = (.response
        { status := 400, contentType := "text/plain; charset=utf-8"
          body := .text "Error retrieving the image file\n" },
        { fs := w.fs, calls := w.calls ++ [.ParseMultipartForm, .FormFile "image"] })) ∧
    (∀ form file handler, r.ParseMultipartForm = some form →
      FormFile form "image" = some (file, handler) →
      rt.Create (rt.Join "uploads" handler.Filename) = false →
      uploadImage rt r w = (.response
        { status := 500, contentType := "text/plain; charset=utf-8"
          body := .text "Error saving the uploaded image\n" },
        { fs := w.fs
          calls := w.calls ++ [.ParseMultipartForm, .FormFile "image",
            .Create (rt.Join "uploads" handler.Filename)] })) ∧
    (∀ form file handler k, r.ParseMultipartForm = some form →
      FormFile form "image" = some (file, handler) →
      rt.Create (rt.Join "uploads" handler.Filename) = true →
      rt.Copy (rt.Join "uploads" handler.Filename) file = some k →
      uploadImage rt r w = (.response
        { status := 500, contentType := "text/plain; charset=utf-8"
          body := .text "Error saving the uploaded image\n" },
        { fs := fun p =>
            if p = rt.Join "uploads" handler.Filename then some (file.take k) else w.fs p
          calls := w.calls ++ [.ParseMultipartForm, .FormFile "image",
            .Create (rt.Join "uploads" handler.Filename),
            .Copy (rt.Join "uploads" handler.Filename) file] })) ∧
    (∀ form file handler, r.ParseMultipartForm = some form →
      FormFile form "image" = some (file, handler) →
      rt.Create (rt.Join "uploads" handler.Filename) = true →
      rt.Copy (rt.Join "uploads" handler.Filename) file = none →
      rt.LoadSavedModel = none →
      uploadImage rt r w = (.response
        { status := 500, contentType := "text/plain; charset=utf-8"
          body := .text "Failed to load the EfficientNet model\n" },
        { fs := fun p => if p = rt.Join "uploads" handler.Filename then some file else w.fs p
          calls := w.calls ++ [.ParseMultipartForm, .FormFile "image",
            .Create (rt.Join "uploads" handler.Filename),
            .Copy (rt.Join "uploads" handler.Filename) file, .LoadSavedModel] })) ∧
    (∀ form file handler model, r.ParseMultipartForm = some form →
      FormFile form "image" = some (file, handler) →
      rt.Create (rt.Join "uploads" handler.Filename) = true →
      rt.Copy (rt.Join "uploads" handler.Filename) file = none →
      rt.LoadSavedModel = some model →
      rt.ReadFile (rt.Join "uploads" handler.Filename) = false →
      uploadImage rt r w = (.response
        { status := 500, contentType := "text/plain; charset=utf-8"
          body := .text "Error loading the image for prediction\n" },
        { fs := fun p => if p = rt.Join "uploads" handler.Filename then some file else w.fs p
          calls := w.calls ++ [.ParseMultipartForm, .FormFile "image",
            .Create (rt.Join "uploads" handler.Filename),
            .Copy (rt.Join "uploads" handler.Filename) file, .LoadSavedModel,
            .ReadFile (rt.Join "uploads" handler.Filename)] })) ∧
    (∀ form file handler model, r.ParseMultipartForm = some form →
      FormFile form "image" = some (file, handler) →
      rt.Create (rt.Join "uploads" handler.Filename) = true →
      rt.Copy (rt.Join "uploads" handler.Filename) file = none →
      rt.LoadSavedModel = some model →
      rt.ReadFile (rt.Join "uploads" handler.Filename) = true →
      rt.NewTensor file = false →
      uploadImage rt r w = (.response
        { status := 500, contentType := "text/plain; charset=utf-8"
          body := .text "Error loading the image for prediction\n" },
        { fs := fun p => if p = rt.Join "uploads" handler.Filename then some file else w.fs p
          calls := w.calls ++ [.ParseMultipartForm, .FormFile "image",
            .Create (rt.Join "uploads" handler.Filename),
            .Copy (rt.Join "uploads" handler.Filename) file, .LoadSavedModel,
            .ReadFile (rt.Join "uploads" handler.Filename), .NewTensor file] })) ∧
    (∀ form file handler model, r.ParseMultipartForm = some form →
      FormFile form "image" = some (file, handler) →
      rt.Create (rt.Join "uploads" handler.Filename) = true →
      rt.Copy (rt.Join "uploads" handler.Filename) file = none →
      rt.LoadSavedModel = some model →
      rt.ReadFile (rt.Join "uploads" handler.Filename) = true →
      rt.NewTensor file = true →
      model.Run ⟨file⟩ = none →
      uploadImage rt r w = (.response
        { status := 500, contentType := "text/plain; charset=utf-8"
          body := .text "Error performing the image prediction\n" },
        { fs := fun p => if p = rt.Join "uploads" handler.Filename then some file else w.fs p
          calls := w.calls ++ [.ParseMultipartForm, .FormFile "image",
            .Create (rt.Join "uploads" handler.Filename),
            .Copy (rt.Join "uploads" handler.Filename) file, .LoadSavedModel,
            .ReadFile (rt.Join "uploads" handler.Filename), .NewTensor file,
            .Run ⟨file⟩] })) := by
  refine ⟨?_, ?_, ?_, ?_, ?_, ?_, ?_, ?_⟩
  · intro h1
    exact uploadImage_of_error rt r w _ _ (runInference_parse_fails rt r w h1)
  · intro form h1 h2
    exact uploadImage_of_error rt r w _ _ (runInference_formFile_fails rt r w form h1 h2)
  · intro form file handler h1 h2 h3
    exact uploadImage_of_error rt r w _ _
      (runInference_create_fails rt r w form file handler h1 h2 h3)
  · intro form file handler k h1 h2 h3 h4
    exact uploadImage_of_error rt r w _ _
      (runInference_copy_fails rt r w form file handler k h1 h2 h3 h4)
  · intro form file handler h1 h2 h3 h4 h5
    exact uploadImage_of_error rt r w _ _
      (runInference_load_fails rt r w form file handler h1 h2 h3 h4 h5)
  · intro form file handler model h1 h2 h3 h4 h5 h6
    exact uploadImage_of_error rt r w _ _
      (runInference_read_fails rt r w form file handler model h1 h2 h3 h4 h5 h6)
  · intro form file handler model h1 h2 h3 h4 h5 h6 h7
    exact uploadImage_of_error rt r w _ _
      (runInference_newTensor_fails rt r w form file handler model h1 h2 h3 h4 h5 h6 h7)
  · intro form file handler model h1 h2 h3 h4 h5 h6 h7 h8
    have hrun := runInference_run rt r w form file handler model h1 h2 h3 h4 h5 h6 h7
    rw [h8] at hrun
    exact uploadImage_of_error rt r w _ _ hrun

/-- Each step failing first, with every later step failing too: the response and the
calls are those of the first failure. -/
theorem uploadImage_first_failure_witness :
    uploadImage (failingFrom 3) malformedRequest emptyWorld
      = (.response
        { status := 400, contentType := "text/plain; charset=utf-8"
          body := .text "Unable to process the uploaded image\n" },
        { fs := emptyWorld.fs, calls := [.ParseMultipartForm] }) ∧
    uploadImage (failingFrom 3) (demoRequest "photo" "cat.png" demoBytes) emptyWorld
      = (.response
        { status := 400, contentType := "text/plain; charset=utf-8"
          body := .text "Error retrieving the image file\n" },
        { fs := emptyWorld.fs, calls := [.ParseMultipartForm, .FormFile "image"] }) ∧
    uploadImage (failingFrom 3) (demoRequest "image" "cat.png" demoBytes) emptyWorld
      = (.response
        { status := 500, contentType := "text/plain; charset=utf-8"
          body := .text "Error saving the uploaded image\n" },
        { fs := emptyWorld.fs
          calls := [.ParseMultipartForm, .FormFile "image", .Create "uploads/cat.png"] }) ∧
    uploadImage (failingFrom 4) (demoRequest "image" "cat.png" demoBytes) emptyWorld
      = (.response
        { status := 500, contentType := "text/plain; charset=utf-8"
          body := .text "Error saving the uploaded image\n" },
        { fs := fun p => if p = "uploads/cat.png" then some [137, 80] else none
          calls := [.ParseMultipartForm, .FormFile "image", .Create "uploads/cat.png",
            .Copy "uploads/cat.png" demoBytes] }) ∧
    uploadImage (failingFrom 5) (demoRequest "image" "cat.png" demoBytes) emptyWorld
      = (.response
        { status := 500, contentType := "text/plain; charset=utf-8"
          body := .text "Failed to load the EfficientNet model\n" },
        { fs := fun p => if p = "uploads/cat.png" then some demoBytes else none
          calls := [.ParseMultipartForm, .FormFile "image", .Create "uploads/cat.png",
            .Copy "uploads/cat.png" demoBytes, .LoadSavedModel] }) ∧
    uploadImage (failingFrom 6) (demoRequest "image" "cat.png" demoBytes) emptyWorld
      = (.response
        { status := 500, contentType := "text/plain; charset=utf-8"
          body := .text "Error loading the image for prediction\n" },
        { fs := fun p => if p = "uploads/cat.png" then some demoBytes else none
          calls := [.ParseMultipartForm, .FormFile "image", .Create "uploads/cat.png",
            .Copy "uploads/cat.png" demoBytes, .LoadSavedModel,
            .ReadFile "uploads/cat.png"] }) ∧
    uploadImage (failingFrom 7) (demoRequest "image" "cat.png" demoBytes) emptyWorld
      = (.response
        { status := 500, contentType := "text/plain; charset=utf-8"
          body := .text "Error loading the image for prediction\n" },
        { fs := fun p => if p = "uploads/cat.png" then some demoBytes else none
          calls := [.ParseMultipartForm, .FormFile "image", .Create "uploads/cat.png",
            .Copy "uploads/cat.png" demoBytes, .LoadSavedModel,
            .ReadFile "uploads/cat.png", .NewTensor demoBytes] }) ∧
    uploadImage (failingFrom 8) (demoRequest "image" "cat.png" demoBytes) emptyWorld
      = (.response
        { status := 500, contentType := "text/plain; charset=utf-8"
          body := .text "Error performing the image prediction\n" },
        { fs := fun p => if p = "uploads/cat.png" then some demoBytes else none
          calls := [.ParseMultipartForm, .FormFile "image", .Create "uploads/cat.png",
            .Copy "uploads/cat.png" demoBytes, .LoadSavedModel,
            .ReadFile "uploads/cat.png", .NewTensor demoBytes, .Run ⟨demoBytes⟩] }) :=
  ⟨(uploadImage_first_failure (failingFrom 3) malformedRequest emptyWorld).1 rfl,
    (uploadImage_first_failure (failingFrom 3) (demoRequest "photo" "cat.png" demoBytes)
      emptyWorld).2.1 (demoForm "photo" "cat.png" demoBytes) rfl rfl,
    (uploadImage_first_failure (failingFrom 3) (demoRequest "image" "cat.png" demoBytes)
      emptyWorld).2.2.1 (demoForm "image" "cat.png" demoBytes) demoBytes
      (demoHeader "cat.png" demoBytes) rfl rfl rfl,
    (uploadImage_first_failure (failingFrom 4) (demoRequest "image" "cat.png" demoBytes)
      emptyWorld).2.2.2.1 (demoForm "image" "cat.png" demoBytes) demoBytes
      (demoHeader "cat.png" demoBytes) 2 rfl rfl rfl rfl,
    (uploadImage_first_failure (failingFrom 5) (demoRequest "image" "cat.png" demoBytes)
      emptyWorld).2.2.2.2.1 (demoForm "image" "cat.png" demoBytes) demoBytes
      (demoHeader "cat.png" demoBytes) rfl rfl rfl rfl rfl,
    (uploadImage_first_failure (failingFrom 6) (demoRequest "image" "cat.png" demoBytes)
      emptyWorld).2.2.2.2.2.1 (demoForm "image" "cat.png" demoBytes) demoBytes
      (demoHeader "cat.png" demoBytes) ⟨fun _ => none⟩ rfl rfl rfl rfl rfl rfl,
    (uploadImage_first_failure (failingFrom 7) (demoRequest "image" "cat.png" demoBytes)
      emptyWorld).2.2.2.2.2.2.1 (demoForm "image" "cat.png" demoBytes) demoBytes
      (demoHeader "cat.png" demoBytes) ⟨fun _ => none⟩ rfl rfl rfl rfl rfl rfl rfl,
    (uploadImage_first_failure (failingFrom 8) (demoRequest "image" "cat.png" demoBytes)
      emptyWorld).2.2.2.2.2.2.2 (demoForm "image" "cat.png" demoBytes) demoBytes
      (demoHeader "cat.png" demoBytes) ⟨fun _ => none⟩ rfl rfl rfl rfl rfl rfl rfl rfl⟩

/-- C7 fails on the code: every step through the inference succeeds and the model returns
an empty vector of probabilities, or an empty batch, and the handler panics at an index
expression: the client gets no response, neither the JSON body nor a 400 or 500. -/
theorem uploadImage_empty_output_panics :
    (runInference (demoRuntime [.float32s [[]]]) (demoRequest "image" "cat.png" demoBytes)
      emptyWorld).1 = .inr [.float32s [[]]] ∧
    (uploadImage (demoRuntime [.float32s [[]]]) (demoRequest "image" "cat.png" demoBytes)
      emptyWorld).1 = .panic "index out of range [0] with length 0" ∧
    (uploadImage (demoRuntime [.float32s [[]]]) (demoRequest "image" "cat.png" demoBytes)
      emptyWorld).1.status = none ∧
    (runInference (demoRuntime [.float32s []]) (demoRequest "image" "cat.png" demoBytes)
      emptyWorld).1 = .inr [.float32s []] ∧
    (uploadImage (demoRuntime [.float32s []]) (demoRequest "image" "cat.png" demoBytes)
      emptyWorld).1 = .panic "index out of range [0] with length 0" ∧
    (uploadImage (demoRuntime [.float32s []]) (demoRequest "image" "cat.png" demoBytes)
      emptyWorld).1.status = none :=
  ⟨rfl, by decide, by decide, rfl, by decide, by decide⟩

/-- C8, the file name does not matter: for one runtime (one model, one sort), two requests
that upload the same bytes and both get status 200 get the same response, whatever their
file names and the worlds they start in; and in each the bytes read back from the saved
path, the bytes of the tensor, and the tensor the model is run on are the uploaded ones. -/
theorem uploadImage_same_content (rt : Runtime α) (r₁ r₂ : Request) (w₁ w₂ : World)
    (form₁ form₂ : Form) (handler₁ handler₂ : FileHeader) (content : Bytes)
    (hparse₁ : r₁.ParseMultipartForm = some form₁)
    (hfile₁ : FormFile form₁ "image" = some (content, handler₁))
    (hparse₂ : r₂.ParseMultipartForm = some form₂)
    (hfile₂ : FormFile form₂ "image" = some (content, handler₂))
    (hok₁ : (uploadImage rt r₁ w₁).1.status = some 200)
    (hok₂ : (uploadImage rt r₂ w₂).1.status = some 200) :
    (uploadImage rt r₁ w₁).1 = (uploadImage rt r₂ w₂).1 ∧
    (uploadImage rt r₁ w₁).2.fs (rt.Join "uploads" handler₁.Filename) = some content ∧
    (uploadImage rt r₂ w₂).2.fs (rt.Join "uploads" handler₂.Filename) = some content ∧
    (uploadImage rt r₁ w₁).2.calls = w₁.calls ++ [.ParseMultipartForm, .FormFile "image",
      .Create (rt.Join "uploads" handler₁.Filename),
      .Copy (rt.Join "uploads" handler₁.Filename) content, .LoadSavedModel,
      .ReadFile (rt.Join "uploads" handler₁.Filename), .NewTensor content, .Run ⟨content⟩] ∧
    (uploadImage rt r₂ w₂).2.calls = w₂.calls ++ [.ParseMultipartForm, .FormFile "image",
      .Create (rt.Join "uploads" handler₂.Filename),
      .Copy (rt.Join "uploads" handler₂.Filename) content, .LoadSavedModel,
      .ReadFile (rt.Join "uploads" handler₂.Filename), .NewTensor content, .Run ⟨content⟩] := by
  obtain ⟨m₁, o₁, hm₁, ho₁, he₁⟩ :=
    uploadImage_status_200 rt r₁ w₁ form₁ content handler₁ hparse₁ hfile₁ hok₁
  obtain ⟨m₂, o₂, hm₂, ho₂, he₂⟩ :=
    uploadImage_status_200 rt r₂ w₂ form₂ content handler₂ hparse₂ hfile₂ hok₂
  have hm : m₁ = m₂ := Option.some.inj (hm₁.symm.trans hm₂)
  subst hm
  have ho : o₁ = o₂ := Option.some.inj (ho₁.symm.trans ho₂)
  subst ho
  rw [he₁, he₂]
  simp

/-- The same four bytes as `cat.png` into an empty world and as `dog.png` into a used one,
with a model whose answer depends on its input. -/
theorem uploadImage_same_content_witness :
    (uploadImage byteCountRuntime (demoRequest "image" "cat.png" demoBytes) emptyWorld).1
      = (uploadImage byteCountRuntime (demoRequest "image" "dog.png" demoBytes) usedWorld).1 ∧
    (uploadImage byteCountRuntime (demoRequest "image" "cat.png" demoBytes) emptyWorld).2.fs
      "uploads/cat.png" = some demoBytes ∧
    (uploadImage byteCountRuntime (demoRequest "image" "dog.png" demoBytes) usedWorld).2.fs
      "uploads/dog.png" = some demoBytes ∧
    (uploadImage byteCountRuntime (demoRequest "image" "cat.png" demoBytes) emptyWorld).2.calls
      = [.ParseMultipartForm, .FormFile "image", .Create "uploads/cat.png",
        .Copy "uploads/cat.png" demoBytes, .LoadSavedModel, .ReadFile "uploads/cat.png",
        .NewTensor demoBytes, .Run ⟨demoBytes⟩] ∧
    (uploadImage byteCountRuntime (demoRequest "image" "dog.png" demoBytes) usedWorld).2.calls
      = [.LoadSavedModel, .ParseMultipartForm, .FormFile "image", .Create "uploads/dog.png",
        .Copy "uploads/dog.png" demoBytes, .LoadSavedModel, .ReadFile "uploads/dog.png",
        .NewTensor demoBytes, .Run ⟨demoBytes⟩] :=
  uploadImage_same_content byteCountRuntime (demoRequest "image" "cat.png" demoBytes)
    (demoRequest "image" "dog.png" demoBytes) emptyWorld usedWorld
    (demoForm "image" "cat.png" demoBytes) (demoForm "image" "dog.png" demoBytes)
    (demoHeader "cat.png" demoBytes) (demoHeader "dog.png" demoBytes) demoBytes
    rfl rfl rfl rfl (by decide!) (by decide!)

/-- C9, the filesystem: when the form parse, the file extraction, the create and the copy
succeed, then after the request the path `Join("uploads", Filename)` holds the uploaded
bytes and every other path holds what it held, whatever the later steps do; when the
form parse or the file extraction fails, the filesystem is as before. -/
theorem uploadImage_filesystem (rt : Runtime α) (r : Request) (w : World) :
    (∀ form file handler, r.ParseMultipartForm = some form →
      FormFile form "image" = some (file, handler) →
      rt.Create (rt.Join "uploads" handler.Filename) = true →
      rt.Copy (rt.Join "uploads" handler.Filename) file = none →
      (uploadImage rt r w).2.fs =
        fun p => if p = rt.Join "uploads" handler.Filename then some file else w.fs p) ∧
    (r.ParseMultipartForm = none → (uploadImage rt r w).2.fs = w.fs) ∧
    (∀ form, r.ParseMultipartForm = some form → FormFile form "image" = none →
      (uploadImage rt r w).2.fs = w.fs) := by
  refine ⟨?_, ?_, ?_⟩
  · intro form file handler h1 h2 h3 h4
    rw [uploadImage_snd]
    cases h5 : rt.LoadSavedModel with
    | none => rw [runInference_load_fails rt r w form file handler h1 h2 h3 h4 h5]
    | some model =>
    cases h6 : rt.ReadFile (rt.Join "uploads" handler.Filename) with
    | false => rw [runInference_read_fails rt r w form file handler model h1 h2 h3 h4 h5 h6]
    | true =>
    cases h7 : rt.NewTensor file with
    | false =>
      rw [runInference_newTensor_fails rt r w form file handler model h1 h2 h3 h4 h5 h6 h7]
    | true => rw [runInference_run rt r w form file handler model h1 h2 h3 h4 h5 h6 h7]
  · intro h1
    rw [uploadImage_snd, runInference_parse_fails rt r w h1]
  · intro form h1 h2
    rw [uploadImage_snd, runInference_formFile_fails rt r w form h1 h2]

/-- An upload as `cat.png` into a world that holds an older `uploads/cat.png`, once with
the model load failing and once with a panic at the end: the file holds the new bytes,
`notes.txt` is untouched; a malformed request and one without `image` change nothing. -/
theorem uploadImage_filesystem_witness :
    ((uploadImage (failingFrom 5) (demoRequest "image" "cat.png" demoBytes) usedWorld).2.fs =
      fun p => if p = "uploads/cat.png" then some demoBytes else usedWorld.fs p) ∧
    ((uploadImage (demoRuntime [.float32s [[]]]) (demoRequest "image" "cat.png" demoBytes)
      usedWorld).2.fs = fun p => if p = "uploads/cat.png" then some demoBytes else usedWorld.fs p) ∧
    (uploadImage (demoRuntime []) malformedRequest usedWorld).2.fs = usedWorld.fs ∧
    (uploadImage (demoRuntime []) (demoRequest "photo" "cat.png" demoBytes) usedWorld).2.fs
      = usedWorld.fs ∧
    (uploadImage (failingFrom 5) (demoRequest "image" "cat.png" demoBytes) usedWorld).2.fs
      "uploads/cat.png" = some demoBytes ∧
    usedWorld.fs "uploads/cat.png" = some [1, 2, 3] ∧
    (uploadImage (failingFrom 5) (demoRequest "image" "cat.png" demoBytes) usedWorld).2.fs
      "notes.txt" = some [104, 105] :=
  ⟨(uploadImage_filesystem (failingFrom 5) (demoRequest "image" "cat.png" demoBytes)
      usedWorld).1 (demoForm "image" "cat.png" demoBytes) demoBytes
      (demoHeader "cat.png" demoBytes) rfl rfl rfl rfl,
    (uploadImage_filesystem (demoRuntime [.float32s [[]]])
      (demoRequest "image" "cat.png" demoBytes) usedWorld).1
      (demoForm "image" "cat.png" demoBytes) demoBytes (demoHeader "cat.png" demoBytes)
      rfl rfl rfl rfl,
    (uploadImage_filesystem (demoRuntime []) malformedRequest usedWorld).2.1 rfl,
    (uploadImage_filesystem (demoRuntime []) (demoRequest "photo" "cat.png" demoBytes)
      usedWorld).2.2 (demoForm "photo" "cat.png" demoBytes) rfl rfl,
    by decide, by decide, by decide⟩

/-- C10 as stated fails: every step succeeds and the output vector is `[+Inf]`, not
empty; `encoding/json` refuses the value, and the response has status 200 and the JSON
content type but an empty body, with none of the three fields. The same happens on
`[NaN, 0.5]`, which stays in this order: the entry reported is NaN. -/
theorem success_body_can_be_empty :
    (runInference (demoRuntime [.float32s [[posInf]]])
      (demoRequest "image" "cat.png" demoBytes) emptyWorld).1 = .inr [.float32s [[posInf]]] ∧
    probsOf [TensorValue.float32s [[posInf]]] = .ok [posInf] ∧
    (uploadImage (demoRuntime [.float32s [[posInf]]])
      (demoRequest "image" "cat.png" demoBytes) emptyWorld).1
      = .response { status := 200, contentType := "application/json", body := .empty } ∧
    (runInference (demoRuntime [.float32s [[.nan, finiteFloat (1 / 2)]]])
      (demoRequest "image" "cat.png" demoBytes) emptyWorld).1
      = .inr [.float32s [[.nan, finiteFloat (1 / 2)]]] ∧
    (uploadImage (demoRuntime [.float32s [[.nan, finiteFloat (1 / 2)]]])
      (demoRequest "image" "cat.png" demoBytes) emptyWorld).1
      = .response { status := 200, contentType := "application/json", body := .empty } :=
  ⟨rfl, rfl, by decide, rfl, by decide!⟩

/-- C10, amended (shape of the success response): when every step through the inference
succeeds and `probs` has a maximum element (an entry that every entry is `<=`, so no
entry is NaN) that `encoding/json` can write, the response has status 200 and content
type `application/json`, and its body is the JSON object with exactly the fields
`message` (the fixed text), `prediction` and `probability`, in this order; and if every
entry of `probs` lies in [0, 1], so does `probability`. -/
theorem uploadImage_success_shape [One α] (rt : Runtime α) (r : Request) (w : World)
    (outputs : List (TensorValue α)) (probs : List (Float32 α)) (p : Float32 α)
    (hsort : SortSliceContract rt.sortSlice)
    (hrun : (runInference rt r w).1 = .inr outputs)
    (hprobs : probsOf outputs = .ok probs)
    (hp : p ∈ probs) (hmax : ∀ q ∈ probs, q.le p = true) (hfin : rt.encodes p = true) :
    ∃ label : String,
      (uploadImage rt r w).1 = .response
        { status := 200, contentType := "application/json"
          body := .json [("message", .str "Image uploaded and processed successfully"),
            ("prediction", .str label), ("probability", .num p)] } ∧
      ((∀ q ∈ probs, (Float32.val 0).le q = true ∧ q.le (.val 1) = true) →
        (Float32.val 0).le p = true ∧ p.le (.val 1) = true) := by
  obtain ⟨k, hk, hkp, hresp⟩ := respond_top rt hsort outputs probs hprobs p hp hmax hfin
  refine ⟨"Class " ++ toString k, ?_, fun hall => hall p hp⟩
  rw [uploadImage_of_outputs rt r w outputs hrun, hresp, hkp]

/-- The output vector `[0.1, 0.7, 0.2]`, every entry in [0, 1]: status 200, the JSON
content type, and the body with the three fields. -/
theorem uploadImage_success_shape_witness :
    (∃ label : String,
      (uploadImage (demoRuntime [.float32s [demoProbs]]) (demoRequest "image" "bird.png" demoBytes) emptyWorld).1 = .response
        { status := 200, contentType := "application/json"
          body := .json [("message", .str "Image uploaded and processed successfully"),
            ("prediction", .str label), ("probability", .num (finiteFloat (7 / 10)))] } ∧
      ((∀ q ∈ demoProbs, (Float32.val 0).le q = true ∧ q.le (.val 1) = true) →
        (Float32.val 0).le (finiteFloat (7 / 10)) = true ∧
          (finiteFloat (7 / 10)).le (.val 1) = true)) ∧
    (∀ q ∈ demoProbs, (Float32.val 0).le q = true ∧ q.le (.val 1) = true) :=
  ⟨uploadImage_success_shape (demoRuntime [.float32s [demoProbs]]) (demoRequest "image" "bird.png" demoBytes) emptyWorld
      [.float32s [demoProbs]] demoProbs (finiteFloat (7 / 10))
      insertionSortLessFunc_contract rfl rfl (by decide!) (by decide!) (by decide!),
    by decide!⟩

end Claims

end ImageSortingApp
